import Mathlib

/-!
# Login form (`src/modules/login/LoginForm.jsx`)

A shallow embedding of the handlers of the login form and of the JavaScript
features they depend on:

* plain objects with string fields (`formData`, `errors`), object spread and
  computed keys;
* lexical resolution of identifiers: a name that no enclosing scope of the file
  declares raises a `ReferenceError` (the global object is assumed to define none
  of the names used here);
* calling a property that is not a function raises a `TypeError`;
* `try` / `catch` / `finally`, and the single suspension point `await`.

State setters (`setFormData`, `setErrors`, ...) are modelled as updates of an
explicit `FormState`; calls to collaborators are recorded, in order, in a trace.
-/

namespace LoginForm

/-! ## Values -/

/-- A plain JavaScript object whose fields hold strings. -/
abbrev Obj := List (String × String)

/-- Property read `o[key]`; `none` stands for `undefined`. -/
def getField : Obj → String → Option String
  | [], _ => none
  | (k, v) :: rest, key => if k = key then some v else getField rest key

/-- The object `{ ...o, [key]: val }`. -/
def setField : Obj → String → String → Obj
  | [], key, val => [(key, val)]
  | (k, v) :: rest, key, val =>
    if k = key then (key, val) :: rest else (k, v) :: setField rest key val

/-- JavaScript truthiness of a value that is `undefined` or a string. -/
def truthy : Option String → Bool
  | none => false
  | some s => s ≠ ""

/-- Errors raised while a handler runs. -/
inductive JsError where
  /-- A call of something that is not a function. -/
  | typeError (callee : String)
  /-- An identifier that no scope declares. -/
  | referenceError (ident : String)
  /-- An error object thrown by a collaborator; `message` may be missing. -/
  | thrown (message : Option String)
deriving DecidableEq, Repr

/-- The `message` property of an error. -/
def JsError.message : JsError → Option String
  | .typeError callee => some (callee ++ " is not a function")
  | .referenceError ident => some (ident ++ " is not defined")
  | .thrown m => m

/-! ## Scopes of the file -/

/-- The two scopes of `LoginForm.jsx` in which handlers are declared. -/
inductive Scope where
  /-- Top level of the module. -/
  | topLevel
  /-- Body of the `LoginForm` function, lines 10-33. -/
  | component
deriving DecidableEq, Repr

/-- Names bound at the top level of the module: the imports of lines 1-6 and the
`const` declarations of lines 9, 36 and 40. -/
def moduleNames : List String :=
  ["React", "useState", "useEffect", "useNavigate", "Input", "Button",
   "loginService", "loginValidation",
   "LoginForm", "handleRememberMeChange", "handleSubmit"]

/-- Names declared in the body of `LoginForm`, lines 10-27. -/
def componentNames : List String :=
  ["navigate", "formData", "setFormData", "rememberMe", "setRememberMe",
   "loading", "setLoading", "errors", "setErrors", "handleChange"]

/-- Names visible in a scope. -/
def Scope.names : Scope → List String
  | .topLevel => moduleNames
  | .component => componentNames ++ moduleNames

/-- Whether an identifier resolves in a scope. -/
def binds (sc : Scope) (ident : String) : Bool :=
  sc.names.contains ident

/-! ## State, events, collaborators -/

/-- State held by the hooks of lines 11-17. -/
structure FormState where
  formData : Obj
  rememberMe : Bool
  loading : Bool
  errors : Obj
deriving DecidableEq, Repr

/-- Initial values of the hooks, lines 11-17. -/
def initialState : FormState :=
  { formData := [("email", ""), ("password", "")]
    rememberMe := false
    loading := false
    errors := [] }

/-- The `target` of an event. -/
structure Target where
  name : String
  value : String
  checked : Bool
deriving DecidableEq, Repr

/-- An event object: the names of its callable properties and its target. -/
structure Event where
  methods : List String
  target : Target
deriving DecidableEq, Repr

/-- Result of `loginValidation.validateLoginForm`. -/
structure ValidationResult where
  isValid : Bool
  errors : Obj
deriving DecidableEq, Repr

/-- Response of the login call. -/
structure AuthResponse where
  token : Option String
deriving DecidableEq, Repr

/-- How the promise returned by `loginService.login` settles: with a response
object, or with an error object. -/
inductive Settled where
  | resolved (response : AuthResponse)
  | rejected (error : JsError)
deriving DecidableEq, Repr

/-- Behaviour of the modules and hooks that `LoginForm.jsx` imports and that are
not part of the file: the validator, the auth client `loginService` (the names of
its callable properties and what each call does) and `navigate` of the router.
For a call that returns nothing, `none` means it returns normally and `some err`
that it throws `err`. -/
structure Collaborators where
  serviceMethods : List String
  validateLoginForm : Option String → Option String → ValidationResult
  login : Option String → Option String → Settled
  saveToken : String → Option JsError
  saveRememberMe : Option String → Option JsError
  removeRememberedEmail : Option JsError
  navigate : String → Option JsError
  rememberedEmail : Option String

/-- A call made to a collaborator. -/
inductive Call where
  | getrememberedEmail
  | validateLoginForm (email password : Option String)
  | login (email password : Option String)
  | saveToken (token : String)
  | saveRememberMe (email : Option String)
  | removeRememberedEmail
  | navigate (path : String)
deriving DecidableEq, Repr

/-- How a handler ends. For the `async` handler `handleSubmit`, `threw` means that
the promise it returns is rejected. -/
inductive Completion where
  | returned
  | threw (error : JsError)
deriving DecidableEq, Repr

/-- A finished run of a handler: the state it leaves, the calls it made and how
it ended. -/
structure Run where
  state : FormState
  calls : List Call
  completion : Completion
deriving DecidableEq, Repr

/-! ## `handleChange`, lines 27-33 (declared inside `LoginForm`) -/

/-- Lines 27-33.
`const { name, value } = e.target;`
`setFormData((prev) => ({ ...prev, [name]: value }));` -/
def handleChange (e : Event) (s : FormState) : Run :=
  if binds .component "setFormData" then
    ⟨{ s with formData := setField s.formData e.target.name e.target.value }, [], .returned⟩
  else
    ⟨s, [], .threw (.referenceError "setFormData")⟩

/-! ## `handleRememberMeChange`, lines 36-38 (declared after line 34 closes `LoginForm`) -/

/-- Lines 36-38, `setRememberMe(e.target.checked);`, run in scope `sc`. -/
def handleRememberMeChange (sc : Scope) (e : Event) (s : FormState) : Run :=
  if binds sc "setRememberMe" then
    ⟨{ s with rememberMe := e.target.checked }, [], .returned⟩
  else
    ⟨s, [], .threw (.referenceError "setRememberMe")⟩

/-! ## The mount effect, lines 19-25 (declared inside `LoginForm`) -/

/-- A shorthand property `ident` in an object literal: the field `ident` receives
the value of the identifier `ident`. `env` lists the string-valued identifiers in
scope; a name that is not in scope raises a `ReferenceError`. -/
def shorthandProperty (env : Obj) (o : Obj) (ident : String) : Except JsError Obj :=
  match getField env ident with
  | some v => .ok (setField o ident v)
  | none => .error (.referenceError ident)

/-- The updater of line 22, `(prev) => ({ ...prev, email, rememberedEmail })`.
The names visible there are those of the component scope, `prev` and the
`const rememberedEmail` of line 20; the only string among them is
`rememberedEmail`. -/
def rememberedEmailUpdater (rememberedEmail : String) (prev : Obj) : Except JsError Obj :=
  let env : Obj := [("rememberedEmail", rememberedEmail)]
  match shorthandProperty env prev "email" with
  | .error err => .error err
  | .ok o => shorthandProperty env o "rememberedEmail"

/-- Lines 19-25, the effect run once after the first render.
When the updater of line 22 throws, no new state is committed: whether the
updater runs at once (the effect stops before line 23) or while the next render
is computed (that render, which would also carry `setRememberMe(true)`, fails),
the component never shows a state other than the one before the effect. -/
def mountEffect (c : Collaborators) (s : FormState) : Run :=
  -- 20: const rememberedEmail = loginService.getrememberedEmail();
  if !c.serviceMethods.contains "getrememberedEmail" then
    ⟨s, [], .threw (.typeError "loginService.getrememberedEmail")⟩
  else
    -- 21: if (rememberedEmail) {
    match c.rememberedEmail with
    | none => ⟨s, [.getrememberedEmail], .returned⟩
    | some r =>
      if r = "" then ⟨s, [.getrememberedEmail], .returned⟩
      else
        -- 22: setFormData((prev) => ({ ...prev, email, rememberedEmail}));
        match rememberedEmailUpdater r s.formData with
        | .error err => ⟨s, [.getrememberedEmail], .threw err⟩
        | .ok formData =>
          -- 23: setRememberMe(true);
          ⟨{ s with formData := formData, rememberMe := true }, [.getrememberedEmail], .returned⟩

/-! ## `handleSubmit`, lines 40-77 (declared after line 34 closes `LoginForm`) -/

/-- The string literal of line 73, as it stands in the file. -/
def defaultMessage : String := "Credenciais inv√°lidas. Tente novamente."

/-- Value of the expression of line 73, `error.message || defaultMessage`. -/
def catchExpression (error : JsError) : String :=
  match error.message with
  | none => defaultMessage
  | some m => if m = "" then defaultMessage else m

/-- Lines 72-74, `catch (error) { ganeral: error.message || ... }`.
The block holds a single statement: an expression statement carrying the label
`ganeral`. The expression is evaluated and its value is dropped; no setter is
called, so the state is the one the block received. -/
def catchBlock (s : FormState) (error : JsError) : FormState :=
  let _value := catchExpression error
  s

/-- Lines 74-76, `finally { setLoading(false); }`. An error raised here replaces
the pending completion. -/
def finallyBlock (sc : Scope) (s : FormState) (calls : List Call) (pending : Completion) : Run :=
  if binds sc "setLoading" then
    ⟨{ s with loading := false }, calls, pending⟩
  else
    ⟨s, calls, .threw (.referenceError "setLoading")⟩

/-- An error raised inside the `try` block: the `catch` block runs and completes
normally, then the `finally` block. -/
def caught (sc : Scope) (s : FormState) (calls : List Call) (error : JsError) : Run :=
  finallyBlock sc (catchBlock s error) calls .returned

/-- A statement of the `try` block that changes no state: the calls it makes and
the error it raises, if any. -/
abbrev Step := List Call × Option JsError

/-- Statements in sequence, up to the first one that throws. -/
def runSteps : List Step → Step
  | [] => ([], none)
  | (cs, some err) :: _ => (cs, some err)
  | (cs, none) :: rest => (cs ++ (runSteps rest).1, (runSteps rest).2)

/-- Line 62, `login.Service.saveToken(response.token);`. The statement starts by
evaluating the identifier `login`. No scope of the file declares it; the `else`
branch records what the call would do if the name denoted the auth client. -/
def saveTokenStep (sc : Scope) (c : Collaborators) (token : String) : Step :=
  if !binds sc "login" then ([], some (.referenceError "login"))
  else ([.saveToken token], c.saveToken token)

/-- Lines 64-68: `loginService.saveRememberMe(formData.email)` when `rememberMe`
holds, `loginService.removeRememberedEmail()` otherwise. `closure` carries the
`rememberMe` and `formData` the handler closes over. -/
def rememberStep (sc : Scope) (c : Collaborators) (closure : FormState) : Step :=
  if !binds sc "rememberMe" then ([], some (.referenceError "rememberMe"))
  else if !binds sc "loginService" then ([], some (.referenceError "loginService"))
  else if closure.rememberMe then
    if !binds sc "formData" then ([], some (.referenceError "formData"))
    else if !c.serviceMethods.contains "saveRememberMe" then
      ([], some (.typeError "loginService.saveRememberMe"))
    else
      ([.saveRememberMe (getField closure.formData "email")],
        c.saveRememberMe (getField closure.formData "email"))
  else if !c.serviceMethods.contains "removeRememberedEmail" then
    ([], some (.typeError "loginService.removeRememberedEmail"))
  else
    ([.removeRememberedEmail], c.removeRememberedEmail)

/-- Line 70, `navigate('/');`. -/
def navigateStep (sc : Scope) (c : Collaborators) : Step :=
  if !binds sc "navigate" then ([], some (.referenceError "navigate"))
  else ([.navigate "/"], c.navigate "/")

/-- Lines 61-76 once the login promise has resolved with `response`. -/
def afterLogin (sc : Scope) (c : Collaborators) (closure s : FormState) (calls : List Call)
    (response : AuthResponse) : Run :=
  -- 61: if (response.token) {
  if truthy response.token then
    match runSteps [saveTokenStep sc c (response.token.getD ""), rememberStep sc c closure,
        navigateStep sc c] with
    | (cs, some err) => caught sc s (calls ++ cs) err
    | (cs, none) => finallyBlock sc s (calls ++ cs) .returned
  else
    finallyBlock sc s calls .returned

/-- The part of `handleSubmit` that runs after the `await` of line 56: `closure`
is the state the handler closes over, `s` the state when the promise settles. -/
def handleSubmitResume (sc : Scope) (c : Collaborators) (closure s : FormState)
    (calls : List Call) (settled : Settled) : Run :=
  match settled with
  | .rejected err => caught sc s calls err
  | .resolved response => afterLogin sc c closure s calls response

/-- Where the synchronous part of `handleSubmit` stops. -/
inductive Started where
  /-- The handler finished without reaching the `await`. -/
  | done (run : Run)
  /-- The handler called `loginService.login` and is suspended at the `await`. -/
  | awaiting (s : FormState) (calls : List Call)
deriving DecidableEq, Repr

/-- Lines 40-59: `handleSubmit` from its invocation to the `await`, run in scope
`sc` on the event `e`, closing over the state `s`. -/
def handleSubmitStart (sc : Scope) (c : Collaborators) (e : Event) (s : FormState) : Started :=
  -- 41: e.preventDeFault();
  if !e.methods.contains "preventDeFault" then
    .done ⟨s, [], .threw (.typeError "e.preventDeFault")⟩
  -- 42: setErrors({});
  else if !binds sc "setErrors" then
    .done ⟨s, [], .threw (.referenceError "setErrors")⟩
  -- 44-47: const validation = loginValidation.validateLoginForm(formData.email, formData.password);
  else if !binds sc "loginValidation" then
    .done ⟨{ s with errors := [] }, [], .threw (.referenceError "loginValidation")⟩
  else if !binds sc "formData" then
    .done ⟨{ s with errors := [] }, [], .threw (.referenceError "formData")⟩
  else
    let email := getField s.formData "email"
    let password := getField s.formData "password"
    let validation := c.validateLoginForm email password
    -- 49-52: if (!validation.isValid) { setErrors(validation.errors) return; }
    if !validation.isValid then
      .done ⟨{ s with errors := validation.errors }, [.validateLoginForm email password], .returned⟩
    -- 54-55: try { setLoading(true);
    else if !binds sc "setLoading" then
      .done (caught sc { s with errors := [] } [.validateLoginForm email password]
        (.referenceError "setLoading"))
    -- 56-59: const response = await loginService.login({ email: ..., password: ... });
    else if !binds sc "loginService" then
      .done (caught sc { s with errors := [], loading := true }
        [.validateLoginForm email password] (.referenceError "loginService"))
    else if !c.serviceMethods.contains "login" then
      .done (caught sc { s with errors := [], loading := true }
        [.validateLoginForm email password] (.typeError "loginService.login"))
    else
      .awaiting { s with errors := [], loading := true }
        [.validateLoginForm email password, .login email password]

/-- The handler `handleSubmit` of lines 40-77 when nothing else runs between the
login call and its settlement. -/
def handleSubmit (sc : Scope) (c : Collaborators) (e : Event) (s : FormState) : Run :=
  match handleSubmitStart sc c e s with
  | .done run => run
  | .awaiting s1 calls =>
    handleSubmitResume sc c s s1 calls
      (c.login (getField s.formData "email") (getField s.formData "password"))

/-! ## The validator (`./LoginValidation`, imported on line 6) -/

/-- What section 4.2 of the specification leaves open in the validation policy:
the syntactic check of an address beyond the presence of an at sign, the minimum
length of a password, and the text of the two messages, which section 8 requires
to be non-empty. -/
structure Policy where
  addressSyntax : String → Bool
  minLength : Nat
  emailMessage : String
  passwordMessage : String
  emailMessage_ne : emailMessage ≠ ""
  passwordMessage_ne : passwordMessage ≠ ""

/-- Whether the e-mail value fails validation: it is missing, empty, has no at
sign (section 8) or is not a syntactically valid address (section 4.2). -/
def emailFails (p : Policy) : Option String → Bool
  | none => true
  | some email => email = "" || !email.data.contains '@' || !p.addressSyntax email

/-- Whether the password value fails validation: it is missing, empty or shorter
than the minimum length (section 4.2). -/
def passwordFails (p : Policy) : Option String → Bool
  | none => true
  | some password => password = "" || password.length < p.minLength

/-- Modelled from the spec: `LoginValidation` is imported by `LoginForm.jsx` but
is not among the source files. Section 4.2: `validateLoginForm(email, password)`
returns a fresh result, `isValid = false` when the e-mail is empty or not a valid
address or the password is empty or below the minimum length; sections 3 and 8:
`errors` maps the name of each offending field to a message and is empty for
valid input. -/
def validateLoginForm (p : Policy) (email password : Option String) : ValidationResult :=
  { isValid := !emailFails p email && !passwordFails p password
    errors := (if emailFails p email then [("email", p.emailMessage)] else []) ++
      (if passwordFails p password then [("password", p.passwordMessage)] else []) }

/-- Modelled from the spec: a valid pair, in the words of sections 4.2 and 8. The
e-mail is not empty, has an at sign and is a syntactically valid address; the
password is not empty and not below the minimum length. -/
def ValidInput (p : Policy) (email password : String) : Prop :=
  email ≠ "" ∧ '@' ∈ email.data ∧ p.addressSyntax email = true ∧
    password ≠ "" ∧ p.minLength ≤ password.length

/-! ## States of the form -/

/-- States the form can be in between runs of its handlers, starting from the
initial values of the hooks: after the mount effect, a field edit, a change of
the remember-me box or a submission. The handlers declared after line 34 run in
scope `sc`, and a run of `handleSubmit` is taken whole, from its invocation to
its last statement. -/
inductive Reachable (sc : Scope) : FormState → Prop where
  | initial : Reachable sc initialState
  | mount (c : Collaborators) {s : FormState} :
      Reachable sc s → Reachable sc (mountEffect c s).state
  | change (e : Event) {s : FormState} :
      Reachable sc s → Reachable sc (handleChange e s).state
  | rememberMeChange (e : Event) {s : FormState} :
      Reachable sc s → Reachable sc (handleRememberMeChange sc e s).state
  | submit (c : Collaborators) (e : Event) {s : FormState} :
      Reachable sc s → Reachable sc (handleSubmit sc c e s).state

/-! ## Concrete inputs -/

/-- A submit or change event as the browser delivers it through React: it has
`preventDefault`, and no `preventDeFault`. -/
def browserEvent (target : Target) : Event :=
  { methods := ["preventDefault", "stopPropagation", "persist",
      "isDefaultPrevented", "isPropagationStopped"]
    target := target }

/-- An event object that also answers to the name used on line 41. -/
def eventWithPreventDeFault (target : Target) : Event :=
  { methods := "preventDeFault" :: (browserEvent target).methods
    target := target }

/-- The target of a submit event: the form itself. -/
def formTarget : Target := { name := "", value := "", checked := false }

/-- Modelled from the spec: `loginService` is imported by `LoginForm.jsx` but is
not among the source files. Section 4.3 lists the operations of the Auth Client:
`login`, `getRememberedEmail`, `saveRememberMe`, `removeRememberedEmail`,
`saveToken`. -/
def authClientOperations : List String :=
  ["login", "getRememberedEmail", "saveRememberMe", "removeRememberedEmail", "saveToken"]

/-- A validation policy used in the examples: minimum password length 6. -/
def samplePolicy : Policy :=
  { addressSyntax := fun _ => true
    minLength := 6
    emailMessage := "E-mail invalido"
    passwordMessage := "Senha invalida"
    emailMessage_ne := by decide
    passwordMessage_ne := by decide }

/-- Collaborators whose persistence and navigation calls return normally: the
auth client answers to `methods`, the login promise settles as `settled`, and
the remembered e-mail read yields `remembered`. -/
def collaborators (methods : List String) (settled : Settled) (remembered : Option String) :
    Collaborators :=
  { serviceMethods := methods
    validateLoginForm := validateLoginForm samplePolicy
    login := fun _ _ => settled
    saveToken := fun _ => none
    saveRememberMe := fun _ => none
    removeRememberedEmail := none
    navigate := fun _ => none
    rememberedEmail := remembered }

/-- The form state with the given field values and otherwise initial. -/
def filled (email password : String) : FormState :=
  { initialState with formData := [("email", email), ("password", password)] }

/-- Scenario 1 of section 8: valid field values. -/
def validForm : FormState := filled "user@example.com" "secret123"

/-- Scenario 2 of section 8: field values that fail validation. -/
def invalidForm : FormState := filled "bad" ""

/-- The form after the user typed the address and the password of scenario 1. -/
def typedForm : FormState :=
  (handleChange (browserEvent ⟨"password", "secret123", false⟩)
    (handleChange (browserEvent ⟨"email", "user@example.com", false⟩) initialState).state).state

/-- The invalid form of scenario 2 with an error left by an earlier attempt. -/
def invalidFormWithOldError : FormState :=
  { invalidForm with errors := [("general", "old")] }

/-- An auth client with the operations of section 4.3 whose login resolves with
the token `abc`. -/
def tokenClient : Collaborators :=
  collaborators authClientOperations (.resolved ⟨some "abc"⟩) none

/-- An auth client whose login resolves with a response without a token. -/
def noTokenClient : Collaborators :=
  collaborators authClientOperations (.resolved ⟨none⟩) none

/-- An auth client whose login rejects with an error that carries a message. -/
def rejectingClient : Collaborators :=
  collaborators authClientOperations (.rejected (.thrown (some "Invalid credentials"))) none

/-- An auth client whose login rejects with an error without a message. -/
def silentlyRejectingClient : Collaborators :=
  collaborators authClientOperations (.rejected (.thrown none)) none

/-- An auth client that remembers `a@b.com` (scenario 4 of section 8) and answers
to `methods`. -/
def rememberingClient (methods : List String) : Collaborators :=
  collaborators methods (.resolved ⟨none⟩) (some "a@b.com")

/-! ## Lemmas about objects and scopes -/

theorem getField_setField_same (o : Obj) (k v : String) :
    getField (setField o k v) k = some v := by
  induction o with
  | nil => simp [setField, getField]
  | cons p rest ih =>
    obtain ⟨a, b⟩ := p
    by_cases h : a = k
    · simp [setField, getField, h]
    · simp [setField, getField, h, ih]

theorem getField_setField_other (o : Obj) (k v m : String) (hm : m ≠ k) :
    getField (setField o k v) m = getField o m := by
  induction o with
  | nil => simp [setField, getField, Ne.symm hm]
  | cons p rest ih =>
    obtain ⟨a, b⟩ := p
    by_cases h : a = k
    · subst h
      simp [setField, getField, Ne.symm hm]
    · simp only [setField, h, if_false, getField, ih]

/-- At the top level of the module, where `handleSubmit` is declared, `setErrors`
does not resolve: the handler stops on line 41 (the event has no `preventDeFault`)
or on line 42 with nothing done. -/
theorem handleSubmitStart_topLevel (c : Collaborators) (e : Event) (s : FormState) :
    handleSubmitStart .topLevel c e s =
      .done ⟨s, [], .threw (if e.methods.contains "preventDeFault" then
        .referenceError "setErrors" else .typeError "e.preventDeFault")⟩ := by
  have h : binds .topLevel "setErrors" = false := by decide
  unfold handleSubmitStart
  by_cases hm : "preventDeFault" ∈ e.methods
  · simp [hm, h]
  · simp [hm]

theorem handleSubmit_topLevel (c : Collaborators) (e : Event) (s : FormState) :
    handleSubmit .topLevel c e s =
      ⟨s, [], .threw (if e.methods.contains "preventDeFault" then
        .referenceError "setErrors" else .typeError "e.preventDeFault")⟩ := by
  simp [handleSubmit, handleSubmitStart_topLevel]

/-- In the component scope the `finally` block clears `loading`. -/
theorem finallyBlock_component_loading (s : FormState) (calls : List Call) (p : Completion) :
    (finallyBlock .component s calls p).state.loading = false := by
  have h : binds .component "setLoading" = true := by decide
  simp [finallyBlock, h]

theorem caught_component_loading (s : FormState) (calls : List Call) (err : JsError) :
    (caught .component s calls err).state.loading = false := by
  simp [caught, finallyBlock_component_loading]

theorem handleSubmitResume_component_loading (c : Collaborators) (closure s : FormState)
    (calls : List Call) (settled : Settled) :
    (handleSubmitResume .component c closure s calls settled).state.loading = false := by
  unfold handleSubmitResume
  cases settled with
  | rejected err => exact caught_component_loading s calls err
  | resolved response =>
    simp only [afterLogin]
    split
    · split
      · exact caught_component_loading _ _ _
      · exact finallyBlock_component_loading _ _ _
    · exact finallyBlock_component_loading _ _ _

/-- The `catch` block changes nothing and the `finally` block touches `loading`
only: whatever error reaches them, `errors` is left as it was. -/
theorem caught_errors (sc : Scope) (s : FormState) (calls : List Call) (err : JsError) :
    (caught sc s calls err).state.errors = s.errors := by
  unfold caught finallyBlock catchBlock
  split <;> rfl

/-- Had `handleSubmit` been declared inside `LoginForm` and had the event a
`preventDeFault` method, a form that fails validation would end with the errors
of the validator and a single call, the validation itself. -/
theorem handleSubmit_component_invalid (c : Collaborators) (e : Event) (s : FormState)
    (he : "preventDeFault" ∈ e.methods)
    (hv : (c.validateLoginForm (getField s.formData "email")
      (getField s.formData "password")).isValid = false) :
    handleSubmit .component c e s =
      ⟨{ s with errors := (c.validateLoginForm (getField s.formData "email")
          (getField s.formData "password")).errors },
        [.validateLoginForm (getField s.formData "email") (getField s.formData "password")],
        .returned⟩ := by
  have h1 : binds .component "setErrors" = true := by decide
  have h2 : binds .component "loginValidation" = true := by decide
  have h3 : binds .component "formData" = true := by decide
  simp [handleSubmit, handleSubmitStart, he, hv, h1, h2, h3]

/-- The updater of line 22 throws on the identifier `email`, whatever the
remembered e-mail and the previous object. -/
theorem rememberedEmailUpdater_throws (r : String) (prev : Obj) :
    rememberedEmailUpdater r prev = .error (.referenceError "email") := by
  simp [rememberedEmailUpdater, shorthandProperty, getField]

/-- The mount effect never commits a new state. -/
theorem mountEffect_state (c : Collaborators) (s : FormState) :
    (mountEffect c s).state = s := by
  unfold mountEffect
  split
  · rfl
  · split
    · rfl
    · split
      · rfl
      · simp [rememberedEmailUpdater_throws]

/-- Outside a submission nothing writes `loading`: `handleChange`,
`handleRememberMeChange` and the mount effect leave it as it was. -/
theorem loading_untouched_outside_submit (sc : Scope) (c : Collaborators) (e : Event)
    (s : FormState) :
    (handleChange e s).state.loading = s.loading ∧
    (handleRememberMeChange sc e s).state.loading = s.loading ∧
    (mountEffect c s).state.loading = s.loading := by
  refine ⟨?_, ?_, by rw [mountEffect_state]⟩
  · unfold handleChange
    split <;> rfl
  · unfold handleRememberMeChange
    split <;> rfl

/-! ## The claims -/

/-- C1 (fails on the code). Scenario 2 of section 8: the fields `bad` and the
empty password fail validation, with an error for each field. `handleSubmit`, run
where it is declared on a browser submit event, throws a `TypeError` on line 41
(`e.preventDeFault` is not a function); on an event object that has such a method
it throws a `ReferenceError` on line 42 (`setErrors` is not in scope). Either way
no collaborator is called, and the errors state is still empty instead of holding
the errors of the validator. -/
theorem handleSubmit_invalid_form_leaves_errors_unset :
    tokenClient.validateLoginForm (getField invalidForm.formData "email")
        (getField invalidForm.formData "password") =
      ⟨false, [("email", "E-mail invalido"), ("password", "Senha invalida")]⟩ ∧
    handleSubmit .topLevel tokenClient (browserEvent formTarget) invalidForm =
      ⟨invalidForm, [], .threw (.typeError "e.preventDeFault")⟩ ∧
    handleSubmit .topLevel tokenClient (eventWithPreventDeFault formTarget) invalidForm =
      ⟨invalidForm, [], .threw (.referenceError "setErrors")⟩ ∧
    invalidForm.errors = [] := by
  decide

/-- C2 (fails on the code). Scenario 1 of section 8: valid fields, login resolves
with the token `abc`. Run where it is declared, `handleSubmit` throws on line 41
and calls nothing. Even inside the component scope and on an event that has a
`preventDeFault` method, line 62 evaluates the undeclared identifier `login`: the
`ReferenceError` is caught, so the run makes the validation and login calls only,
with no `saveToken`, `saveRememberMe`, `removeRememberedEmail` or `navigate`,
whether `rememberMe` is off or on. -/
theorem handleSubmit_token_never_persisted :
    handleSubmit .topLevel tokenClient (browserEvent formTarget) validForm =
      ⟨validForm, [], .threw (.typeError "e.preventDeFault")⟩ ∧
    saveTokenStep .component tokenClient "abc" = ([], some (.referenceError "login")) ∧
    handleSubmit .component tokenClient (eventWithPreventDeFault formTarget) validForm =
      ⟨validForm,
        [.validateLoginForm (some "user@example.com") (some "secret123"),
          .login (some "user@example.com") (some "secret123")],
        .returned⟩ ∧
    (handleSubmit .component tokenClient (eventWithPreventDeFault formTarget)
        { validForm with rememberMe := true }).calls =
      [.validateLoginForm (some "user@example.com") (some "secret123"),
        .login (some "user@example.com") (some "secret123")] := by
  decide

/-- C3 (fails on the code). Scenario 3 of section 8: valid fields, login rejects.
Run where it is declared, `handleSubmit` throws on line 41 and leaves the errors
state empty. Even inside the component scope and on an event that has a
`preventDeFault` method, the `catch` block computes the message (`Invalid
credentials`, or the fallback text when the error has none) and drops it: the
handler returns normally with an empty errors state. A response without a token
ends the same way. -/
theorem handleSubmit_login_failure_leaves_errors_empty :
    handleSubmit .topLevel rejectingClient (browserEvent formTarget) validForm =
      ⟨validForm, [], .threw (.typeError "e.preventDeFault")⟩ ∧
    catchExpression (.thrown (some "Invalid credentials")) = "Invalid credentials" ∧
    catchExpression (.thrown none) = defaultMessage ∧
    handleSubmit .component rejectingClient (eventWithPreventDeFault formTarget) validForm =
      ⟨validForm,
        [.validateLoginForm (some "user@example.com") (some "secret123"),
          .login (some "user@example.com") (some "secret123")],
        .returned⟩ ∧
    (handleSubmit .component silentlyRejectingClient (eventWithPreventDeFault formTarget)
        validForm).state.errors = [] ∧
    (handleSubmit .component noTokenClient (eventWithPreventDeFault formTarget)
        validForm).state.errors = [] ∧
    validForm.errors = [] := by
  decide

/-- A run of `handleSubmit` that starts with `loading` false ends with `loading`
false, in either scope and whatever the event and the collaborators do. -/
theorem handleSubmit_preserves_loading_false (sc : Scope) (c : Collaborators) (e : Event)
    (s : FormState) (h : s.loading = false) :
    (handleSubmit sc c e s).state.loading = false := by
  cases sc with
  | topLevel => simp [handleSubmit_topLevel, h]
  | component =>
    have h1 : binds .component "setErrors" = true := by decide
    have h2 : binds .component "loginValidation" = true := by decide
    have h3 : binds .component "formData" = true := by decide
    have h4 : binds .component "setLoading" = true := by decide
    have h5 : binds .component "loginService" = true := by decide
    unfold handleSubmit handleSubmitStart
    by_cases hm : "preventDeFault" ∈ e.methods
    · by_cases hv : (c.validateLoginForm (getField s.formData "email")
          (getField s.formData "password")).isValid = true
      · by_cases hl : "login" ∈ c.serviceMethods
        · simp [h1, h2, h3, h4, h5, hm, hv, hl, handleSubmitResume_component_loading]
        · simp [h1, h2, h3, h4, h5, hm, hv, hl, caught_component_loading]
      · simp [h1, h2, h3, hm, hv, h]
    · simp [hm, h]

/-- In the component scope, once validation has passed, the `finally` block
clears `loading` whatever its value was when the handler started. -/
theorem handleSubmit_component_valid_clears_loading (c : Collaborators) (e : Event)
    (s : FormState) (he : "preventDeFault" ∈ e.methods)
    (hv : (c.validateLoginForm (getField s.formData "email")
      (getField s.formData "password")).isValid = true) :
    (handleSubmit .component c e s).state.loading = false := by
  have h1 : binds .component "setErrors" = true := by decide
  have h2 : binds .component "loginValidation" = true := by decide
  have h3 : binds .component "formData" = true := by decide
  have h4 : binds .component "setLoading" = true := by decide
  have h5 : binds .component "loginService" = true := by decide
  unfold handleSubmit handleSubmitStart
  by_cases hl : "login" ∈ c.serviceMethods
  · simp [h1, h2, h3, h4, h5, he, hv, hl, handleSubmitResume_component_loading]
  · simp [h1, h2, h3, h4, h5, he, hv, hl, caught_component_loading]

/-- The part of `handleSubmit` after the `await` makes the same calls and ends the
same way whatever the state it resumes in and whatever `loading` was in the state
it closes over. -/
theorem handleSubmitResume_component_trace (c : Collaborators) (closure s s1 : FormState)
    (calls : List Call) (settled : Settled) (b : Bool) :
    (handleSubmitResume .component c { closure with loading := b } s calls settled).calls =
      (handleSubmitResume .component c closure s1 calls settled).calls ∧
    (handleSubmitResume .component c { closure with loading := b } s calls settled).completion =
      (handleSubmitResume .component c closure s1 calls settled).completion := by
  have h4 : binds .component "setLoading" = true := by decide
  have hr : rememberStep .component c { closure with loading := b } =
      rememberStep .component c closure := rfl
  cases settled with
  | rejected err => simp [handleSubmitResume, caught, finallyBlock, h4]
  | resolved response =>
    simp only [handleSubmitResume, afterLogin, hr]
    split
    · split <;> simp [caught, finallyBlock, h4]
    · simp [finallyBlock, h4]

/-- The handler `handleSubmit` does not read `loading`: in either scope, the calls
it makes and the way it ends are the same whether it starts with `loading` true
or false. -/
theorem handleSubmit_does_not_read_loading (sc : Scope) (c : Collaborators) (e : Event)
    (s : FormState) (b : Bool) :
    (handleSubmit sc c e { s with loading := b }).calls = (handleSubmit sc c e s).calls ∧
    (handleSubmit sc c e { s with loading := b }).completion =
      (handleSubmit sc c e s).completion := by
  cases sc with
  | topLevel => simp [handleSubmit_topLevel]
  | component =>
    have h1 : binds .component "setErrors" = true := by decide
    have h2 : binds .component "loginValidation" = true := by decide
    have h3 : binds .component "formData" = true := by decide
    have h4 : binds .component "setLoading" = true := by decide
    have h5 : binds .component "loginService" = true := by decide
    unfold handleSubmit handleSubmitStart
    by_cases hm : "preventDeFault" ∈ e.methods
    · by_cases hv : (c.validateLoginForm (getField s.formData "email")
          (getField s.formData "password")).isValid = true
      · by_cases hl : "login" ∈ c.serviceMethods
        · simpa [h1, h2, h3, h4, h5, hm, hv, hl] using
            handleSubmitResume_component_trace c s
              { s with loading := true, errors := [] } { s with loading := true, errors := [] }
              [.validateLoginForm (getField s.formData "email") (getField s.formData "password"),
                .login (getField s.formData "email") (getField s.formData "password")]
              (c.login (getField s.formData "email") (getField s.formData "password")) b
        · simp [h1, h2, h3, h4, h5, hm, hv, hl, caught, finallyBlock]
      · simp [h1, h2, h3, hm, hv]
    · simp [hm]

/-- In every state the form can be in, `loading` is false. -/
theorem reachable_loading (sc : Scope) (s : FormState) (h : Reachable sc s) :
    s.loading = false := by
  induction h with
  | initial => rfl
  | mount c _ ih => rw [mountEffect_state]; exact ih
  | change e _ ih =>
    rw [(loading_untouched_outside_submit sc tokenClient e _).1]; exact ih
  | rememberMeChange e _ ih =>
    rw [(loading_untouched_outside_submit sc tokenClient e _).2.1]; exact ih
  | submit c e _ ih => exact handleSubmit_preserves_loading_false sc c e _ ih

/-- C4. For every state the form can be in, every event and every behaviour of
the collaborators (validation fails, login resolves with or without a token,
login rejects, a persistence or navigation call throws), `loading` is false when
`handleSubmit` finishes. This holds where the handler is declared, and also in
the component scope, where the `try` block is entered and its `finally` runs. -/
theorem handleSubmit_finishes_with_loading_false (sc : Scope) (c : Collaborators)
    (e : Event) (s : FormState) (h : Reachable sc s) :
    (handleSubmit sc c e s).state.loading = false :=
  handleSubmit_preserves_loading_false sc c e s (reachable_loading sc s h)

/-- C4, instance: scenario 3 of section 8. The user types a valid address and
password, and the login rejects: in the component scope the run reaches the login
call and ends with `loading` false; so does the run where the handler is
declared, on a browser event. -/
theorem handleSubmit_finishes_with_loading_false_witness :
    Reachable .component typedForm ∧
    (handleSubmit .component rejectingClient (eventWithPreventDeFault formTarget)
        typedForm).calls =
      [.validateLoginForm (some "user@example.com") (some "secret123"),
        .login (some "user@example.com") (some "secret123")] ∧
    (handleSubmit .component rejectingClient (eventWithPreventDeFault formTarget)
        typedForm).state.loading = false ∧
    Reachable .topLevel typedForm ∧
    (handleSubmit .topLevel rejectingClient (browserEvent formTarget)
        typedForm).state.loading = false :=
  ⟨.change _ (.change _ .initial), by decide,
    handleSubmit_finishes_with_loading_false .component rejectingClient
      (eventWithPreventDeFault formTarget) typedForm (.change _ (.change _ .initial)),
    .change _ (.change _ .initial),
    handleSubmit_finishes_with_loading_false .topLevel rejectingClient
      (browserEvent formTarget) typedForm (.change _ (.change _ .initial))⟩

/-- C5 (fails on the code). Scenario 4 of section 8: the auth client remembers
`a@b.com`. With the operations of section 4.3 the effect throws on line 20
(`getrememberedEmail`, with a small `r`, is not one of them). With an auth client
that does answer to that name, the updater of line 22 throws on the undeclared
identifier `email`. In both cases the state after mount is the initial one: the
e-mail is empty and `rememberMe` is false. -/
theorem mountEffect_does_not_prefill_email :
    mountEffect (rememberingClient authClientOperations) initialState =
      ⟨initialState, [], .threw (.typeError "loginService.getrememberedEmail")⟩ ∧
    mountEffect (rememberingClient ("getrememberedEmail" :: authClientOperations))
        initialState =
      ⟨initialState, [.getrememberedEmail], .threw (.referenceError "email")⟩ ∧
    getField initialState.formData "email" = some "" ∧
    initialState.rememberMe = false := by
  decide

/-- C7. For every event and form state, `handleChange` returns normally with
`formData[name]` equal to `value`, every other field of `formData` as before, and
`errors`, `rememberMe` and `loading` as before. -/
theorem handleChange_sets_named_field_only (e : Event) (s : FormState) :
    (handleChange e s).completion = .returned ∧
    getField (handleChange e s).state.formData e.target.name = some e.target.value ∧
    (∀ m, m ≠ e.target.name →
      getField (handleChange e s).state.formData m = getField s.formData m) ∧
    (handleChange e s).state.errors = s.errors ∧
    (handleChange e s).state.rememberMe = s.rememberMe ∧
    (handleChange e s).state.loading = s.loading := by
  have h : binds .component "setFormData" = true := by decide
  simp only [handleChange, h, if_true]
  exact ⟨trivial, getField_setField_same _ _ _,
    fun m hm => getField_setField_other _ _ _ m hm, trivial, trivial, trivial⟩

/-- C7, instance: typing an address into the `email` field of a form that shows
an old error leaves the password and the error as they are. -/
theorem handleChange_sets_named_field_only_witness :
    getField (handleChange (browserEvent ⟨"email", "a@b.com", false⟩)
        invalidFormWithOldError).state.formData "password" = some "" ∧
    (handleChange (browserEvent ⟨"email", "a@b.com", false⟩)
        invalidFormWithOldError).state.errors = [("general", "old")] :=
  ⟨((handleChange_sets_named_field_only (browserEvent ⟨"email", "a@b.com", false⟩)
      invalidFormWithOldError).2.2.1 "password" (by decide)).trans (by decide),
    (handleChange_sets_named_field_only (browserEvent ⟨"email", "a@b.com", false⟩)
      invalidFormWithOldError).2.2.2.1.trans (by decide)⟩

/-- C8 (fails on the code). The same invalid fields submitted from two prior
errors states: `handleSubmit`, run where it is declared on a browser submit event,
stops on line 41 ahead of `setErrors`, so each run ends with the errors it started
with. The two results differ, and neither is the errors of the validator. -/
theorem handleSubmit_keeps_prior_errors :
    (handleSubmit .topLevel tokenClient (browserEvent formTarget)
        invalidFormWithOldError).state.errors = [("general", "old")] ∧
    (handleSubmit .topLevel tokenClient (browserEvent formTarget)
        invalidForm).state.errors = [] ∧
    invalidFormWithOldError.formData = invalidForm.formData ∧
    (tokenClient.validateLoginForm (getField invalidForm.formData "email")
        (getField invalidForm.formData "password")).errors =
      [("email", "E-mail invalido"), ("password", "Senha invalida")] := by
  decide

/-- C9 (fails on the code). Scenario 1 of section 8: valid fields, `loading`
false. `handleSubmit`, run where it is declared on a browser submit event, ends
its synchronous part without reaching the `await`: `setLoading(true)` on line 55
and the login call on line 56 are never reached, and `loading` is false
throughout. The same holds on an event that has a `preventDeFault` method. -/
theorem handleSubmit_never_sets_loading :
    (tokenClient.validateLoginForm (getField validForm.formData "email")
        (getField validForm.formData "password")).isValid = true ∧
    handleSubmitStart .topLevel tokenClient (browserEvent formTarget) validForm =
      .done ⟨validForm, [], .threw (.typeError "e.preventDeFault")⟩ ∧
    handleSubmitStart .topLevel tokenClient (eventWithPreventDeFault formTarget) validForm =
      .done ⟨validForm, [], .threw (.referenceError "setErrors")⟩ ∧
    validForm.loading = false := by
  decide

/-- C10 (against the validator modelled from the specification). For every
policy and every pair of strings: an e-mail without an at sign gives
`isValid = false` and a non-empty message under `email`; an empty password gives
`isValid = false` and a non-empty message under `password`; a field that is not
at fault gets no message; and a valid pair, in the words of sections 4.2 and 8,
gives `isValid = true` and an empty errors mapping. -/
theorem validateLoginForm_meets_section_8 (p : Policy) (email password : String) :
    ('@' ∉ email.data →
      (validateLoginForm p (some email) (some password)).isValid = false ∧
      ∃ m, getField (validateLoginForm p (some email) (some password)).errors "email" = some m ∧
        m ≠ "") ∧
    (password = "" →
      (validateLoginForm p (some email) (some password)).isValid = false ∧
      ∃ m, getField (validateLoginForm p (some email) (some password)).errors "password" =
        some m ∧ m ≠ "") ∧
    (email ≠ "" ∧ '@' ∈ email.data ∧ p.addressSyntax email = true →
      getField (validateLoginForm p (some email) (some password)).errors "email" = none) ∧
    (password ≠ "" ∧ p.minLength ≤ password.length →
      getField (validateLoginForm p (some email) (some password)).errors "password" = none) ∧
    (ValidInput p email password →
      (validateLoginForm p (some email) (some password)).isValid = true ∧
      (validateLoginForm p (some email) (some password)).errors = []) := by
  refine ⟨fun h => ?_, fun h => ?_, fun h => ?_, fun h => ?_, fun h => ?_⟩
  · have hf : emailFails p (some email) = true := by simp [emailFails, h]
    refine ⟨by simp [validateLoginForm, hf], p.emailMessage, ?_, p.emailMessage_ne⟩
    simp [validateLoginForm, hf, getField]
  · have hf : passwordFails p (some password) = true := by simp [passwordFails, h]
    refine ⟨by simp [validateLoginForm, hf], p.passwordMessage, ?_, p.passwordMessage_ne⟩
    by_cases he : emailFails p (some email) = true
    · simp [validateLoginForm, hf, he, getField]
    · simp [validateLoginForm, hf, he, getField]
  · obtain ⟨h1, h2, h3⟩ := h
    have hf : emailFails p (some email) = false := by simp [emailFails, h1, h2, h3]
    by_cases hp : passwordFails p (some password) = true
    · simp [validateLoginForm, hf, hp, getField]
    · simp [validateLoginForm, hf, hp, getField]
  · obtain ⟨h1, h2⟩ := h
    have hf : passwordFails p (some password) = false := by
      simp [passwordFails, h1, h2]
    by_cases he : emailFails p (some email) = true
    · simp [validateLoginForm, hf, he, getField]
    · simp [validateLoginForm, hf, he, getField]
  · obtain ⟨h1, h2, h3, h4, h5⟩ := h
    have hf : emailFails p (some email) = false := by simp [emailFails, h1, h2, h3]
    have hg : passwordFails p (some password) = false := by
      simp [passwordFails, h4, h5]
    simp [validateLoginForm, hf, hg]

/-- C10, instance: under the sample policy, scenario 2 of section 8 (`bad` has no
at sign, the password is empty) is rejected with a message for each field, and
scenario 1 (`user@example.com`, `secret123`) is a valid pair and is accepted with
no errors. -/
theorem validateLoginForm_meets_section_8_witness :
    ('@' ∉ "bad".data ∧
      (validateLoginForm samplePolicy (some "bad") (some "")).isValid = false ∧
      ∃ m, getField (validateLoginForm samplePolicy (some "bad") (some "")).errors "email" =
        some m ∧ m ≠ "") ∧
    ((validateLoginForm samplePolicy (some "bad") (some "")).isValid = false ∧
      ∃ m, getField (validateLoginForm samplePolicy (some "bad") (some "")).errors "password" =
        some m ∧ m ≠ "") ∧
    (ValidInput samplePolicy "user@example.com" "secret123" ∧
      (validateLoginForm samplePolicy (some "user@example.com") (some "secret123")).isValid =
        true ∧
      (validateLoginForm samplePolicy (some "user@example.com") (some "secret123")).errors =
        []) :=
  ⟨⟨by decide, (validateLoginForm_meets_section_8 samplePolicy "bad" "").1 (by decide)⟩,
    (validateLoginForm_meets_section_8 samplePolicy "bad" "").2.1 rfl,
    ⟨by decide, by decide, rfl, by decide, by decide⟩,
    (validateLoginForm_meets_section_8 samplePolicy "user@example.com" "secret123").2.2.2.2
      ⟨by decide, by decide, rfl, by decide, by decide⟩⟩

end LoginForm
